import Mathlib

/-!
Verification of rickstaa/livepeer-exporter against its specification.

The program (src/main.go) reads configuration from environment variables,
constructs five Prometheus sub-exporters, starts them, and serves metrics
over HTTP. We embed the configuration logic (including Go's
`time.ParseDuration`) and the observable startup behaviour of `main` as
pure Lean functions, and the generic fetch/update sub-exporter mechanism
described by the specification (whose Go sources are outside src/) as
explicit state-transition functions.

Durations are modelled as integer nanosecond counts, matching Go's
`time.Duration` (an `int64` of nanoseconds).
-/

deriving instance DecidableEq for Except

namespace LivepeerExporter

/-! ### Go `time` package: duration constants (in nanoseconds) -/

def Nanosecond : Nat := 1

def Microsecond : Nat := 1000 * Nanosecond

def Millisecond : Nat := 1000 * Microsecond

def Second : Nat := 1000 * Millisecond

def Minute : Nat := 60 * Second

def Hour : Nat := 60 * Minute

/-- Go `time.unitMap`: the unit suffixes `ParseDuration` accepts. -/
def unitMap (u : String) : Option Nat :=
  if u = "ns" then some Nanosecond
  else if u = "us" then some Microsecond
  else if u = "µs" then some Microsecond
  else if u = "μs" then some Microsecond
  else if u = "ms" then some Millisecond
  else if u = "s" then some Second
  else if u = "m" then some Minute
  else if u = "h" then some Hour
  else none

/-- Go `quote` from the time package, as used in duration error messages.
Go additionally escapes non-printable characters; the configuration strings
relevant here are plain text, for which quoting is just surrounding double
quotes. -/
def quoteArg (s : String) : String := "\"" ++ s ++ "\""

/-- Go `leadingInt`: consume a leading run of decimal digits, accumulating
into `x` as a `uint64` with an overflow check (`none` models the
`errLeadingInt` error). -/
def leadingInt : List Char → Nat → Option (Nat × List Char)
  | [], x => some (x, [])
  | c :: rest, x =>
    if c.isDigit then
      if x > 2 ^ 63 / 10 then none
      else
        -- uint64 arithmetic; the guard above keeps this below 2 ^ 64
        let y := (x * 10 + (c.toNat - 48)) % 2 ^ 64
        if y > 2 ^ 63 then none
        else leadingInt rest y
    else some (x, c :: rest)

/-- Go `leadingFraction`: consume digits after a decimal point, returning the
accumulated value `x`, the scale (a power of ten), and the rest.  Once the
accumulator would overflow, further digits are consumed but ignored. -/
def leadingFraction : List Char → Nat → Nat → Bool → (Nat × Nat × List Char)
  | [], x, scale, _ => (x, scale, [])
  | c :: rest, x, scale, overflow =>
    if c.isDigit then
      if overflow then leadingFraction rest x scale true
      else if x > (2 ^ 63 - 1) / 10 then leadingFraction rest x scale true
      else
        -- uint64 arithmetic; the guard above keeps this below 2 ^ 64
        let y := (x * 10 + (c.toNat - 48)) % 2 ^ 64
        if y > 2 ^ 63 then leadingFraction rest x scale true
        else leadingFraction rest y (scale * 10) false
    else (x, scale, c :: rest)

/-- `⌊log₂ n⌋` by repeated halving, written with explicit fuel so that it is
structurally recursive (and hence evaluates inside the kernel); `fuel ≥ n`
always suffices. -/
def log2Fuel : Nat → Nat → Nat
  | 0, _ => 0
  | fuel + 1, n => if n ≥ 2 then log2Fuel fuel (n / 2) + 1 else 0

/-- `⌊log₂ n⌋` (0 for `n = 0`). -/
def natLog2 (n : Nat) : Nat := log2Fuel n n

/-- Round the fraction `num / den` (with `den > 0`) to the nearest integer,
ties to even — the IEEE-754 default rounding. -/
def roundHalfEven (num den : Nat) : Nat :=
  let m := num / den
  let r := num % den
  if 2 * r > den then m + 1
  else if 2 * r < den then m
  else if m % 2 = 0 then m
  else m + 1

/-- `⌊log₂ (a / b)⌋` for positive naturals `a` and `b`.  For `a < b` the
result is `-n` where `n` is the least exponent with `a * 2 ^ n ≥ b`; that
`n` is `k` or `k + 1` for `k = ⌊log₂ (b / a)⌋`. -/
def floorLog2Pos (a b : Nat) : Int :=
  if b ≤ a then (natLog2 (a / b) : Int)
  else
    let k := natLog2 (b / a)
    if b ≤ a * 2 ^ k then -(k : Int) else -((k : Int) + 1)

/-- Round the positive rational `a / b` to the nearest IEEE-754 binary64
value, returned as a mantissa/exponent pair `(m, t)` denoting `m * 2 ^ t`:
`t = ⌊log₂ (a / b)⌋ - 52` and `m` is the 53-bit mantissa rounded to
nearest, ties to even (`m` may round up to `2 ^ 53`, which denotes the same
IEEE value as mantissa `2 ^ 52` one binade up).  Every value arising in
duration parsing is far inside the normal range, so neither overflow nor
subnormals need modelling. -/
def roundDoublePos (a b : Nat) : Nat × Int :=
  let t := floorLog2Pos a b - 52
  let m :=
    if t ≤ 0 then roundHalfEven (a * 2 ^ (-t).toNat) b
    else roundHalfEven a (b * 2 ^ t.toNat)
  (m, t)

/-- The fractional contribution of one duration term.  Go computes
`uint64(float64(f) * (float64(unit) / scale))` in IEEE-754 binary64
arithmetic: `unit ≤ 3.6e12 < 2^53` is exactly representable, and `scale`
(a float in Go, built by repeated multiplication by 10) is a power of ten
of at most `10^19`, hence also exact; so the division is the correct
rounding of the exact quotient `unit / scale`, `float64(f)` is the correct
rounding of `f`, the product is rounded once more, and the conversion to
`uint64` truncates toward zero (all values are nonnegative). -/
def fracNanoseconds (f unit scale : Nat) : Nat :=
  if f = 0 then 0
  else
    let x := roundDoublePos f 1
    let y := roundDoublePos unit scale
    let t := x.2 + y.2
    let (zn, zd) : Nat × Nat :=
      if 0 ≤ t then (x.1 * y.1 * 2 ^ t.toNat, 1)
      else (x.1 * y.1, 2 ^ (-t).toNat)
    let z := roundDoublePos zn zd
    if 0 ≤ z.2 then z.1 * 2 ^ z.2.toNat else z.1 / 2 ^ (-z.2).toNat

/-- One unit term is a digit and/or fraction followed by a unit suffix, so each
iteration of the `ParseDuration` loop consumes at least one character; `fuel`
(passed in as more than the input length) therefore never runs out and only
serves to make the recursion structural.

`v` and `d` are Go `uint64` accumulators, so every operation on them is
taken modulo `2 ^ 64`.  The guards keep all of them below `2 ^ 64` except
the `d + vf` accumulation: `d` and `vf` can each be exactly `2 ^ 63`, in
which case their sum wraps to 0 and passes the `d > 2 ^ 63` check, exactly
as in Go (which therefore accepts two terms of `2 ^ 63` nanoseconds as the
zero duration).  The fractional contribution follows the binary64
computation, see `fracNanoseconds`. -/
def parseLoop (orig : String) : Nat → List Char → Nat → Except String Nat
  | 0, _, _ => .error ("time: invalid duration " ++ quoteArg orig)
  | _ + 1, [], d => .ok d
  | fuel + 1, c :: cs, d =>
    -- The next character must be [0-9.]
    if ¬(c = '.' ∨ c.isDigit) then
      .error ("time: invalid duration " ++ quoteArg orig)
    else
      let s := c :: cs
      let pl := s.length
      -- Consume [0-9]*
      match leadingInt s 0 with
      | none => .error ("time: invalid duration " ++ quoteArg orig)
      | some (v, s1) =>
        let pre : Bool := pl ≠ s1.length
        -- Consume an optional fraction: a dot followed by [0-9]*
        let (f, scale, s2, post) :=
          match s1 with
          | '.' :: rest =>
            let pl2 := rest.length
            let (f, scale, s3) := leadingFraction rest 0 1 false
            (f, scale, s3, (pl2 ≠ s3.length : Bool))
          | _ => (0, 1, s1, false)
        if ¬pre ∧ ¬post then
          .error ("time: invalid duration " ++ quoteArg orig)
        else
          -- Consume the unit: everything up to the next digit or dot
          let unitChars := s2.takeWhile (fun ch => !(ch == '.' || ch.isDigit))
          let s3 := s2.dropWhile (fun ch => !(ch == '.' || ch.isDigit))
          if unitChars.length = 0 then
            .error ("time: missing unit in duration " ++ quoteArg orig)
          else
            match unitMap (String.mk unitChars) with
            | none =>
              .error ("time: unknown unit " ++ quoteArg (String.mk unitChars) ++
                " in duration " ++ quoteArg orig)
            | some unit =>
              if v > 2 ^ 63 / unit then
                .error ("time: invalid duration " ++ quoteArg orig)
              else
                -- uint64 arithmetic; the guard above keeps v * unit at or
                -- below 2 ^ 63, and the fractional contribution is below
                -- the unit, so neither operation can wrap
                let v := (v * unit) % 2 ^ 64
                let vf :=
                  if f > 0 then (v + fracNanoseconds f unit scale) % 2 ^ 64
                  else v
                if f > 0 ∧ vf > 2 ^ 63 then
                  .error ("time: invalid duration " ++ quoteArg orig)
                else
                  -- uint64 arithmetic: d and vf can each be exactly 2 ^ 63,
                  -- in which case the sum wraps to 0 and passes the check
                  -- below, exactly as in Go
                  let d := (d + vf) % 2 ^ 64
                  if d > 2 ^ 63 then
                    .error ("time: invalid duration " ++ quoteArg orig)
                  else
                    parseLoop orig fuel s3 d

/-- Go `time.ParseDuration`: parse a duration string such as "300ms",
"-1.5h" or "2h45m" into a signed nanosecond count. -/
def parseDuration (s : String) : Except String Int :=
  let orig := s
  -- Consume [-+]?
  let (neg, cs) :=
    match s.data with
    | '-' :: rest => (true, rest)
    | '+' :: rest => (false, rest)
    | cs => (false, cs)
  -- Special case: if all that is left is "0", this is zero.
  if cs = ['0'] then .ok 0
  else if cs = [] then .error ("time: invalid duration " ++ quoteArg orig)
  else
    match parseLoop orig (cs.length + 1) cs 0 with
    | .error e => .error e
    | .ok d =>
      if neg then .ok (-(d : Int))
      else if d > 2 ^ 63 - 1 then
        .error ("time: invalid duration " ++ quoteArg orig)
      else .ok (d : Int)

/-! ### src/main.go: defaults, configuration and startup behaviour -/

/-- src/main.go line 32: `fetchIntervalDefault = 1 * time.Minute`. -/
def fetchIntervalDefault : Int := (1 * Minute : Nat)

/-- src/main.go line 33: `testStreamsFetchIntervalDefault = 15 * time.Minute`. -/
def testStreamsFetchIntervalDefault : Int := (15 * Minute : Nat)

/-- src/main.go line 34: `updateIntervalDefault = 30 * time.Second`. -/
def updateIntervalDefault : Int := (30 * Second : Nat)

/-- The five environment variables read by `main`.  Go's `os.Getenv` returns
the empty string both when a variable is unset and when it is set to the
empty string, so each field is simply a string. -/
structure Env where
  orchestratorAddress : String
  orchestratorAddressSecondary : String
  fetchInterval : String
  fetchTestStreamsInterval : String
  updateInterval : String
deriving DecidableEq, Repr

/-- The configuration `main` has assembled once all environment variables
have been read successfully. -/
structure Config where
  orchAddr : String
  orchAddrSecondary : String
  fetchInterval : Int
  fetchTestStreamsInterval : Int
  updateInterval : Int
deriving DecidableEq, Repr

/-- The pattern repeated for each duration variable in src/main.go lines
51-88: an empty value selects the default, otherwise `time.ParseDuration`
is called and a parse error is fatal with a message naming the variable. -/
def resolveInterval (value : String) (varName : String) (dflt : Int) :
    Except String Int :=
  if value = "" then .ok dflt
  else
    match parseDuration value with
    | .ok d => .ok d
    | .error e =>
      .error ("failed to parse \x27" ++ varName ++ "\x27 environment variable: " ++ e)

/-- The fatal message of src/main.go line 44. -/
def missingAddrMsg : String :=
  "\x27LIVEPEER_EXPORTER_ORCHESTRATOR_ADDRESS\x27 environment variable should be set"

/-- The configuration phase of `main` (src/main.go lines 42-88): an error is
a `log.Fatal`, which terminates the process with non-zero status before
anything else happens.  The checks occur in source order. -/
def mainConfig (env : Env) : Except String Config :=
  if env.orchestratorAddress = "" then .error missingAddrMsg
  else
    match resolveInterval env.fetchInterval "LIVEPEER_EXPORTER_FETCH_INTERVAL"
        fetchIntervalDefault with
    | .error e => .error e
    | .ok fetchInterval =>
      match resolveInterval env.fetchTestStreamsInterval
          "LIVEPEER_EXPORTER_FETCH_TEST_STREAMS_INTERVAL"
          testStreamsFetchIntervalDefault with
      | .error e => .error e
      | .ok fetchTestStreamsInterval =>
        match resolveInterval env.updateInterval "LIVEPEER_EXPORTER_UPDATE_INTERVAL"
            updateIntervalDefault with
        | .error e => .error e
        | .ok updateInterval =>
          .ok ⟨env.orchestratorAddress, env.orchestratorAddressSecondary,
            fetchInterval, fetchTestStreamsInterval, updateInterval⟩

/-- The externally observable actions of `main` after (or instead of)
configuration: constructing a sub-exporter with its arguments, starting a
sub-exporter, terminating via `log.Fatal`, opening the HTTP listener, and
returning from `main`. -/
inductive Event where
  | fatalLog (msg : String)
  | constructInfoExporter (orchAddr : String) (fetchInterval updateInterval : Int)
      (orchAddrSecondary : String)
  | constructExporter (pkg : String) (orchAddr : String)
      (fetchInterval updateInterval : Int)
  | startExporter (pkg : String)
  | listenAndServe (port : Nat)
  | returnFromMain
deriving DecidableEq, Repr

def Event.isFatalLog : Event → Bool
  | .fatalLog _ => true
  | _ => false

def Event.isStartExporter : Event → Bool
  | .startExporter _ => true
  | _ => false

def Event.isListenAndServe : Event → Bool
  | .listenAndServe _ => true
  | _ => false

/-- The action trace of `main` (src/main.go lines 38-109).  A configuration
error produces only the fatal log.  Otherwise the five sub-exporters are
constructed (lines 92-96) and started (lines 100-104), the listener is
opened on port 9153, and — whatever `http.ListenAndServe` returns, its
error value being discarded on line 109 — `main` returns.  `serveErr` is
the (ignored) result of `http.ListenAndServe`. -/
def mainTrace (env : Env) (serveErr : Option String) : List Event :=
  match mainConfig env with
  | .error msg => [.fatalLog msg]
  | .ok cfg =>
      [.constructInfoExporter cfg.orchAddr cfg.fetchInterval cfg.updateInterval
        cfg.orchAddrSecondary,
      .constructExporter "orch_score_exporter" cfg.orchAddr cfg.fetchInterval
        cfg.updateInterval,
      .constructExporter "orch_delegators_exporter" cfg.orchAddr cfg.fetchInterval
        cfg.updateInterval,
      .constructExporter "orch_test_streams_exporter" cfg.orchAddr
        cfg.fetchTestStreamsInterval cfg.updateInterval,
      .constructExporter "orch_tickets_exporter" cfg.orchAddr cfg.fetchInterval
        cfg.updateInterval,
      .startExporter "orch_info_exporter",
      .startExporter "orch_score_exporter",
      .startExporter "orch_delegators_exporter",
      .startExporter "orch_test_streams_exporter",
      .startExporter "orch_tickets_exporter",
      .listenAndServe 9153,
      .returnFromMain]

/-! ### The generic sub-exporter mechanism

The five sub-exporter packages (`exporters/orch_info_exporter` and friends)
are imported by src/main.go but their source files are not part of src/, so
the fetch/update mechanism below is modelled from the specification. -/

/-- The ways a fetch can fail according to the spec: network failure,
non-2xx HTTP status, or a decode failure of the response body. -/
inductive FetchError where
  | network (msg : String)
  | nonSuccessStatus (code : Nat)
  | decodeFailure (msg : String)
deriving DecidableEq, Repr

/-- Modelled from the spec: each sub-exporter owns an in-memory snapshot of
the last successfully decoded response (type `α`), the gauge values it has
published (type `β`), and the endpoint-specific derivation `render` used by
the update loop to turn the snapshot into gauge values. -/
structure SubExporter (α β : Type) where
  render : α → β
  snapshot : α
  gauges : β

/-- Modelled from the spec: one tick of the fetch loop.  On success the
snapshot is replaced wholesale by the decoded data; on any error (network
failure, non-2xx status, decode failure) the error is only logged and the
existing snapshot is left untouched. -/
def fetchTick {α β : Type} (e : SubExporter α β) (result : Except FetchError α) :
    SubExporter α β :=
  match result with
  | .ok data => { e with snapshot := data }
  | .error _ => e

/-- Modelled from the spec: one tick of the update loop reads the current
snapshot and republishes the gauge values derived from it. -/
def updateTick {α β : Type} (e : SubExporter α β) : SubExporter α β :=
  { e with gauges := e.render e.snapshot }

/-- Modelled from the spec: a sub-exporter whose gauges are keyed by a
variable-length collection (delegators, test streams, tickets).  The
published state is a list of label/value pairs; `renderLabels` derives the
label set and values from a snapshot. -/
structure DynLabelExporter (κ α : Type) where
  renderLabels : α → List (κ × ℚ)
  snapshot : α
  labeledGauges : List (κ × ℚ)

/-- Modelled from the spec: a successful fetch replaces the snapshot of a
dynamically-labelled exporter wholesale. -/
def dynFetchOk {κ α : Type} (e : DynLabelExporter κ α) (data : α) :
    DynLabelExporter κ α :=
  { e with snapshot := data }

/-- Modelled from the spec: each update tick fully resets/replaces the
dynamic label set, so the published pairs are exactly those derived from
the current snapshot. -/
def dynUpdateTick {κ α : Type} (e : DynLabelExporter κ α) : DynLabelExporter κ α :=
  { e with labeledGauges := e.renderLabels e.snapshot }

/-- Modelled from the spec and the documentation comment of src/main.go
(lines 8-9): the info exporter computes the `livepeer_orch_stake` gauge
from the bonded stake of the orchestrator; when a secondary orchestrator
address is configured (non-empty), the LPT stake of that address is added
to the stake bonded by the orchestrator. -/
def orchStakeGauge (bondedStake : ℚ) (orchAddrSecondary : String)
    (bondedStakeSecondary : ℚ) : ℚ :=
  if orchAddrSecondary = "" then bondedStake
  else bondedStake + bondedStakeSecondary

/-- A concrete dynamically-labelled exporter over string labels whose
snapshot is itself the label/value list: two delegators are currently
published. -/
def dynExporterExample : DynLabelExporter String (List (String × ℚ)) :=
  ⟨id, [], [("0xaaa", 1), ("0xbbb", 2)]⟩

/-- A freshly fetched snapshot for `dynExporterExample` in which the second
delegator has disappeared. -/
def dynDataExample : List (String × ℚ) := [("0xaaa", 3)]

/-! ### Fidelity checks of the embedded ParseDuration

Corner cases of the `uint64` and binary64 modelling, each checked against
the behaviour of Go `time.ParseDuration`. -/

/-- Two terms of `2 ^ 63` nanoseconds: each passes the per-term checks, and
the `uint64` accumulator wraps to 0 at exactly `2 ^ 64`, so the whole
string is accepted as the zero duration, as in Go. -/
theorem parseDuration_uint64_wrap :
    parseDuration "9223372036854775808ns9223372036854775808ns" = .ok 0 := by
  decide

/-- A single term of `2 ^ 63` nanoseconds survives the loop but fails the
final `d > 2 ^ 63 - 1` range check, as in Go. -/
theorem parseDuration_single_term_overflow :
    parseDuration "9223372036854775808ns" =
      .error "time: invalid duration \"9223372036854775808ns\"" := by
  decide

/-- A fractional duration exercising the binary64 computation:
1.5 hours is 5400000000000 ns, as in Go. -/
theorem parseDuration_fractional :
    parseDuration "1.5h" = .ok 5400000000000 := by
  decide

/-! ### Claims -/

/-- C1: if `LIVEPEER_EXPORTER_ORCHESTRATOR_ADDRESS` is unset or empty, the
process terminates with the fatal error of src/main.go line 44: the trace
of `main` is exactly that fatal log, so no sub-exporter is ever started and
the HTTP listener is never opened. -/
theorem C1_empty_address_fatal (env : Env) (serveErr : Option String)
    (h : env.orchestratorAddress = "") :
    mainTrace env serveErr = [Event.fatalLog missingAddrMsg] ∧
    (mainTrace env serveErr).all
      (fun ev => !ev.isStartExporter && !ev.isListenAndServe) = true := by
  have ht : mainTrace env serveErr = [Event.fatalLog missingAddrMsg] := by
    simp [mainTrace, mainConfig, h]
  exact ⟨ht, by rw [ht]; rfl⟩

/-- Witness for C1 at the environment where every variable is empty. -/
theorem C1_empty_address_fatal_witness :
    (Env.mk "" "" "" "" "").orchestratorAddress = "" ∧
    (mainTrace (Env.mk "" "" "" "" "") none = [Event.fatalLog missingAddrMsg] ∧
    (mainTrace (Env.mk "" "" "" "" "") none).all
      (fun ev => !ev.isStartExporter && !ev.isListenAndServe) = true) :=
  ⟨rfl, C1_empty_address_fatal (Env.mk "" "" "" "" "") none rfl⟩

/-- C2: whenever configuration succeeds, an empty (unset) duration variable
yields exactly its documented default interval: 1 minute for
`LIVEPEER_EXPORTER_FETCH_INTERVAL`, 15 minutes for
`LIVEPEER_EXPORTER_FETCH_TEST_STREAMS_INTERVAL` and 30 seconds for
`LIVEPEER_EXPORTER_UPDATE_INTERVAL` (in nanoseconds). -/
theorem C2_default_intervals (env : Env) (cfg : Config)
    (h : mainConfig env = .ok cfg) :
    (env.fetchInterval = "" → cfg.fetchInterval = fetchIntervalDefault) ∧
    (env.fetchTestStreamsInterval = "" →
      cfg.fetchTestStreamsInterval = testStreamsFetchIntervalDefault) ∧
    (env.updateInterval = "" → cfg.updateInterval = updateIntervalDefault) ∧
    fetchIntervalDefault = 60 * 1000000000 ∧
    testStreamsFetchIntervalDefault = 15 * 60 * 1000000000 ∧
    updateIntervalDefault = 30 * 1000000000 := by
  unfold mainConfig at h
  split at h
  · exact Except.noConfusion h
  split at h
  · exact Except.noConfusion h
  rename_i fi hfi
  split at h
  · exact Except.noConfusion h
  rename_i ti hti
  split at h
  · exact Except.noConfusion h
  rename_i ui hui
  injection h with h
  subst h
  refine ⟨fun hv => ?_, fun hv => ?_, fun hv => ?_, by decide, by decide, by decide⟩
  · rw [hv] at hfi
    simpa [resolveInterval] using hfi.symm
  · rw [hv] at hti
    simpa [resolveInterval] using hti.symm
  · rw [hv] at hui
    simpa [resolveInterval] using hui.symm

/-- Witness for C2: all three duration variables empty gives the three
documented defaults. -/
theorem C2_default_intervals_witness :
    mainConfig (Env.mk "0xAddr" "" "" "" "") =
      .ok (Config.mk "0xAddr" "" fetchIntervalDefault
        testStreamsFetchIntervalDefault updateIntervalDefault) ∧
    ((Env.mk "0xAddr" "" "" "" "").fetchInterval = "" →
      (Config.mk "0xAddr" "" fetchIntervalDefault testStreamsFetchIntervalDefault
        updateIntervalDefault).fetchInterval = fetchIntervalDefault) ∧
    ((Env.mk "0xAddr" "" "" "" "").fetchTestStreamsInterval = "" →
      (Config.mk "0xAddr" "" fetchIntervalDefault testStreamsFetchIntervalDefault
        updateIntervalDefault).fetchTestStreamsInterval =
        testStreamsFetchIntervalDefault) ∧
    ((Env.mk "0xAddr" "" "" "" "").updateInterval = "" →
      (Config.mk "0xAddr" "" fetchIntervalDefault testStreamsFetchIntervalDefault
        updateIntervalDefault).updateInterval = updateIntervalDefault) ∧
    fetchIntervalDefault = 60 * 1000000000 ∧
    testStreamsFetchIntervalDefault = 15 * 60 * 1000000000 ∧
    updateIntervalDefault = 30 * 1000000000 := by
  have hcfg : mainConfig (Env.mk "0xAddr" "" "" "" "") =
      .ok (Config.mk "0xAddr" "" fetchIntervalDefault
        testStreamsFetchIntervalDefault updateIntervalDefault) := by decide
  exact ⟨hcfg, C2_default_intervals (Env.mk "0xAddr" "" "" "" "") _ hcfg⟩

/-- C3: a non-empty duration variable that `time.ParseDuration` rejects is
a fatal configuration error naming the variable and the parse error
(src/main.go lines 51-88); the trace of `main` is exactly that fatal log,
with no fallback to the default interval. -/
theorem C3_unparseable_duration_fatal (addr sec s e : String)
    (serveErr : Option String) (haddr : addr ≠ "") (hs : s ≠ "")
    (hp : parseDuration s = .error e) :
    mainTrace (Env.mk addr sec s "" "") serveErr =
      [Event.fatalLog
        ("failed to parse \x27LIVEPEER_EXPORTER_FETCH_INTERVAL\x27 environment variable: " ++ e)] ∧
    mainTrace (Env.mk addr sec "" s "") serveErr =
      [Event.fatalLog
        ("failed to parse \x27LIVEPEER_EXPORTER_FETCH_TEST_STREAMS_INTERVAL\x27 environment variable: " ++ e)] ∧
    mainTrace (Env.mk addr sec "" "" s) serveErr =
      [Event.fatalLog
        ("failed to parse \x27LIVEPEER_EXPORTER_UPDATE_INTERVAL\x27 environment variable: " ++ e)] := by
  refine ⟨?_, ?_, ?_⟩ <;>
    simp [mainTrace, mainConfig, resolveInterval, haddr, hs, hp]

/-- Witness for C3 at the unparseable value "notaduration". -/
theorem C3_unparseable_duration_fatal_witness :
    parseDuration "notaduration" =
      .error "time: invalid duration \"notaduration\"" ∧
    (mainTrace (Env.mk "0xAddr" "" "notaduration" "" "") none =
      [Event.fatalLog
        ("failed to parse \x27LIVEPEER_EXPORTER_FETCH_INTERVAL\x27 environment variable: " ++
          "time: invalid duration \"notaduration\"")] ∧
    mainTrace (Env.mk "0xAddr" "" "" "notaduration" "") none =
      [Event.fatalLog
        ("failed to parse \x27LIVEPEER_EXPORTER_FETCH_TEST_STREAMS_INTERVAL\x27 environment variable: " ++
          "time: invalid duration \"notaduration\"")] ∧
    mainTrace (Env.mk "0xAddr" "" "" "" "notaduration") none =
      [Event.fatalLog
        ("failed to parse \x27LIVEPEER_EXPORTER_UPDATE_INTERVAL\x27 environment variable: " ++
          "time: invalid duration \"notaduration\"")]) :=
  ⟨by decide,
    C3_unparseable_duration_fatal "0xAddr" "" "notaduration"
      "time: invalid duration \"notaduration\"" none (by decide) (by decide)
      (by decide)⟩

/-- C4: a failed fetch (network error, non-2xx status, or decode failure)
leaves the sub-exporter completely unchanged, so the gauge values published
by the next update tick are the same as if the failure had never happened —
in particular they are never reset to zero. -/
theorem C4_failed_fetch_keeps_snapshot {α β : Type} (e : SubExporter α β)
    (err : FetchError) :
    fetchTick e (.error err) = e ∧
    (updateTick (fetchTick e (.error err))).gauges = (updateTick e).gauges :=
  ⟨rfl, rfl⟩

/-- C5: when a secondary orchestrator address is configured (non-empty),
the stake gauge is the sum of the bonded stake of the primary and of the
secondary address. -/
theorem C5_stake_sums_secondary (bondedStake bondedStakeSecondary : ℚ)
    (orchAddrSecondary : String) (h : orchAddrSecondary ≠ "") :
    orchStakeGauge bondedStake orchAddrSecondary bondedStakeSecondary =
      bondedStake + bondedStakeSecondary := by
  simp [orchStakeGauge, h]

/-- Witness for C5: primary stake 100 and secondary stake 50 give gauge
value 150. -/
theorem C5_stake_sums_secondary_witness :
    ("0xSecondary" : String) ≠ "" ∧
    orchStakeGauge 100 "0xSecondary" 50 = 150 := by
  refine ⟨by decide, ?_⟩
  rw [C5_stake_sums_secondary 100 50 "0xSecondary" (by decide)]
  norm_num

/-- C6: for a dynamically-labelled exporter, a successful fetch followed by
an update tick publishes exactly the label set derived from the new data:
a label present before but absent from the new data is absent from the
published gauges, rather than lingering with a stale value. -/
theorem C6_stale_labels_removed {κ α : Type} (e : DynLabelExporter κ α)
    (d : α) (k : κ) (hstale : k ∈ e.labeledGauges.map Prod.fst)
    (hgone : k ∉ (e.renderLabels d).map Prod.fst) :
    k ∉ (dynUpdateTick (dynFetchOk e d)).labeledGauges.map Prod.fst := by
  simpa [dynUpdateTick, dynFetchOk] using hgone

/-- Witness for C6: delegator "0xbbb" is published, disappears from the
fetched data, and is gone from the gauges after the update tick. -/
theorem C6_stale_labels_removed_witness :
    ("0xbbb" : String) ∈ dynExporterExample.labeledGauges.map Prod.fst ∧
    ("0xbbb" : String) ∉ (dynExporterExample.renderLabels dynDataExample).map Prod.fst ∧
    ("0xbbb" : String) ∉
      (dynUpdateTick (dynFetchOk dynExporterExample dynDataExample)).labeledGauges.map
        Prod.fst := by
  refine ⟨by simp [dynExporterExample], by simp [dynExporterExample, dynDataExample], ?_⟩
  exact C6_stale_labels_removed dynExporterExample dynDataExample "0xbbb"
    (by simp [dynExporterExample]) (by simp [dynExporterExample, dynDataExample])

/-- C7: on successful configuration, the test-streams sub-exporter is
constructed with the test-streams fetch interval while the info, score,
delegators and tickets sub-exporters are constructed with the main fetch
interval, and all five are constructed with the same update interval
(src/main.go lines 92-96). -/
theorem C7_interval_wiring (env : Env) (serveErr : Option String) (cfg : Config)
    (h : mainConfig env = .ok cfg) :
    Event.constructInfoExporter cfg.orchAddr cfg.fetchInterval cfg.updateInterval
        cfg.orchAddrSecondary ∈ mainTrace env serveErr ∧
    Event.constructExporter "orch_score_exporter" cfg.orchAddr cfg.fetchInterval
        cfg.updateInterval ∈ mainTrace env serveErr ∧
    Event.constructExporter "orch_delegators_exporter" cfg.orchAddr
        cfg.fetchInterval cfg.updateInterval ∈ mainTrace env serveErr ∧
    Event.constructExporter "orch_test_streams_exporter" cfg.orchAddr
        cfg.fetchTestStreamsInterval cfg.updateInterval ∈ mainTrace env serveErr ∧
    Event.constructExporter "orch_tickets_exporter" cfg.orchAddr cfg.fetchInterval
        cfg.updateInterval ∈ mainTrace env serveErr := by
  refine ⟨?_, ?_, ?_, ?_, ?_⟩ <;> simp [mainTrace, h]

/-- Witness for C7 at the default configuration. -/
theorem C7_interval_wiring_witness :
    mainConfig (Env.mk "0xAddr" "" "" "" "") =
      .ok (Config.mk "0xAddr" "" fetchIntervalDefault
        testStreamsFetchIntervalDefault updateIntervalDefault) ∧
    (Event.constructInfoExporter "0xAddr" fetchIntervalDefault updateIntervalDefault
        "" ∈ mainTrace (Env.mk "0xAddr" "" "" "" "") none ∧
    Event.constructExporter "orch_score_exporter" "0xAddr" fetchIntervalDefault
        updateIntervalDefault ∈ mainTrace (Env.mk "0xAddr" "" "" "" "") none ∧
    Event.constructExporter "orch_delegators_exporter" "0xAddr" fetchIntervalDefault
        updateIntervalDefault ∈ mainTrace (Env.mk "0xAddr" "" "" "" "") none ∧
    Event.constructExporter "orch_test_streams_exporter" "0xAddr"
        testStreamsFetchIntervalDefault updateIntervalDefault ∈
        mainTrace (Env.mk "0xAddr" "" "" "" "") none ∧
    Event.constructExporter "orch_tickets_exporter" "0xAddr" fetchIntervalDefault
        updateIntervalDefault ∈ mainTrace (Env.mk "0xAddr" "" "" "" "") none) := by
  have hcfg : mainConfig (Env.mk "0xAddr" "" "" "" "") =
      .ok (Config.mk "0xAddr" "" fetchIntervalDefault
        testStreamsFetchIntervalDefault updateIntervalDefault) := by decide
  exact ⟨hcfg, C7_interval_wiring (Env.mk "0xAddr" "" "" "" "") none _ hcfg⟩

/-- C9: any string `time.ParseDuration` accepts — including zero and
negative durations — is a valid configuration value, and the parsed value
is used verbatim as the interval, with no range validation and no fatal
error. -/
theorem C9_parsed_value_verbatim (addr sec s : String) (d : Int)
    (haddr : addr ≠ "") (hs : s ≠ "") (hp : parseDuration s = .ok d) :
    mainConfig (Env.mk addr sec s "" "") =
      .ok (Config.mk addr sec d testStreamsFetchIntervalDefault
        updateIntervalDefault) ∧
    mainConfig (Env.mk addr sec "" s "") =
      .ok (Config.mk addr sec fetchIntervalDefault d updateIntervalDefault) ∧
    mainConfig (Env.mk addr sec "" "" s) =
      .ok (Config.mk addr sec fetchIntervalDefault
        testStreamsFetchIntervalDefault d) := by
  refine ⟨?_, ?_, ?_⟩ <;> simp [mainConfig, resolveInterval, haddr, hs, hp]

/-- Witness for C9 at the zero duration "0s" and the negative duration
"-5m" (-300000000000 ns). -/
theorem C9_parsed_value_verbatim_witness :
    parseDuration "0s" = .ok 0 ∧
    parseDuration "-5m" = .ok (-300000000000) ∧
    mainConfig (Env.mk "0xAddr" "" "0s" "" "") =
      .ok (Config.mk "0xAddr" "" 0 testStreamsFetchIntervalDefault
        updateIntervalDefault) ∧
    mainConfig (Env.mk "0xAddr" "" "" "" "-5m") =
      .ok (Config.mk "0xAddr" "" fetchIntervalDefault
        testStreamsFetchIntervalDefault (-300000000000)) :=
  ⟨by decide, by decide,
    (C9_parsed_value_verbatim "0xAddr" "" "0s" 0 (by decide) (by decide)
      (by decide)).1,
    (C9_parsed_value_verbatim "0xAddr" "" "-5m" (-300000000000) (by decide)
      (by decide) (by decide)).2.2⟩

/-- C10: the error returned by `http.ListenAndServe` on port 9153 is
discarded (src/main.go line 109): whatever that result is, the trace of
`main` is the same as with no error, the listener event is present, `main`
simply returns as its last action, and no fatal error is ever logged on
this path. -/
theorem C10_listen_error_discarded (env : Env) (serveErr : Option String)
    (cfg : Config) (h : mainConfig env = .ok cfg) :
    mainTrace env serveErr = mainTrace env none ∧
    Event.listenAndServe 9153 ∈ mainTrace env serveErr ∧
    (mainTrace env serveErr).getLast? = some Event.returnFromMain ∧
    (mainTrace env serveErr).all (fun ev => !ev.isFatalLog) = true := by
  have ht : mainTrace env serveErr =
      [Event.constructInfoExporter cfg.orchAddr cfg.fetchInterval
        cfg.updateInterval cfg.orchAddrSecondary,
      Event.constructExporter "orch_score_exporter" cfg.orchAddr cfg.fetchInterval
        cfg.updateInterval,
      Event.constructExporter "orch_delegators_exporter" cfg.orchAddr
        cfg.fetchInterval cfg.updateInterval,
      Event.constructExporter "orch_test_streams_exporter" cfg.orchAddr
        cfg.fetchTestStreamsInterval cfg.updateInterval,
      Event.constructExporter "orch_tickets_exporter" cfg.orchAddr
        cfg.fetchInterval cfg.updateInterval,
      Event.startExporter "orch_info_exporter",
      Event.startExporter "orch_score_exporter",
      Event.startExporter "orch_delegators_exporter",
      Event.startExporter "orch_test_streams_exporter",
      Event.startExporter "orch_tickets_exporter",
      Event.listenAndServe 9153,
      Event.returnFromMain] := by
    simp [mainTrace, h]
  refine ⟨rfl, ?_, ?_, ?_⟩
  · rw [ht]; simp
  · rw [ht]; rfl
  · rw [ht]; rfl

/-- Witness for C10 at a failing listen result: a simulated
"address already in use" error produces the same trace as no error. -/
theorem C10_listen_error_discarded_witness :
    mainConfig (Env.mk "0xAddr" "" "" "" "") =
      .ok (Config.mk "0xAddr" "" fetchIntervalDefault
        testStreamsFetchIntervalDefault updateIntervalDefault) ∧
    (mainTrace (Env.mk "0xAddr" "" "" "" "") (some "listen tcp :9153: address already in use") =
      mainTrace (Env.mk "0xAddr" "" "" "" "") none ∧
    Event.listenAndServe 9153 ∈
      mainTrace (Env.mk "0xAddr" "" "" "" "")
        (some "listen tcp :9153: address already in use") ∧
    (mainTrace (Env.mk "0xAddr" "" "" "" "")
        (some "listen tcp :9153: address already in use")).getLast? =
      some Event.returnFromMain ∧
    (mainTrace (Env.mk "0xAddr" "" "" "" "")
        (some "listen tcp :9153: address already in use")).all
      (fun ev => !ev.isFatalLog) = true) := by
  have hcfg : mainConfig (Env.mk "0xAddr" "" "" "" "") =
      .ok (Config.mk "0xAddr" "" fetchIntervalDefault
        testStreamsFetchIntervalDefault updateIntervalDefault) := by decide
  exact ⟨hcfg,
    C10_listen_error_discarded (Env.mk "0xAddr" "" "" "" "")
      (some "listen tcp :9153: address already in use") _ hcfg⟩

end LivepeerExporter

